import Mathlib

/-!
Verification of the flocker acceptance-test orchestrator
(`admin/acceptance.py`).

The file shallowly embeds the orchestration logic of the script:
the lifecycle guard in `main`, the client and cluster test workflows,
and the two node runners (`VagrantRunner` and `LibcloudRunner`).
External effects (process execution, the libcloud provisioner,
`ssh-keygen -R`, remote commands) are modelled as oracle functions
supplied by a "world" record; the embedded functions record the calls
they make so that claims about invocation counts and orderings can be
stated and proved.
-/

namespace Acceptance

/-- A node returned by the libcloud provisioner.  The script uses its
`name` (for destruction logging) and its `address` (for known-host
cleanup). -/
structure CloudNode where
  name : String
  address : String
  deriving Repr, DecidableEq

/-- Evaluates to `true` exactly on `Except.ok` values. -/
def exceptOk {ε α : Type} : Except ε α → Bool
  | .ok _ => true
  | .error _ => false

/-- `LibcloudRunner.stop_nodes`: iterate over the tracked nodes, attempt
`node.destroy()` on each; an exception is caught and logged and the loop
continues.  `destroy` is the oracle giving each destruction's outcome.
Returns the list of nodes whose destruction was attempted and the list
of nodes whose destruction failed (the logged ones), in loop order. -/
def stop_nodes (destroy : CloudNode → Except String Unit) :
    List CloudNode → List CloudNode × List CloudNode
  | [] => ([], [])
  | nd :: rest =>
    let tail := stop_nodes destroy rest
    match destroy nd with
    | .ok _ => (nd :: tail.1, tail.2)
    | .error _ => (nd :: tail.1, nd :: tail.2)

/-- Observable outcome of one invocation of `main` (lines 558-590 of the
script).  `exit` is `.ok n` for `raise SystemExit(n)` and `.error e` when
the workflow's exception is re-raised after the `finally` block. -/
structure MainRunResult where
  stopNodesCalls : Nat
  destroyAttempts : List CloudNode
  destroyFailures : List CloudNode
  keepNotice : Bool
  exit : Except Unit Int
  deriving Repr

/-- The tail of `main`: the workflow either returns an exit code
(`.ok n`) or raises (`.error e`, in which case `result` is set to `1`
before re-raising).  The `finally` block runs `runner.stop_nodes`
unless `result != 0 and options['keep']`; in that remaining case, if
`keep` is set, a notice is printed instead.  For the cloud runner the
stop call walks `tracked` with the `destroy` oracle. -/
def main_run (workflow : Except Unit Int) (keep : Bool)
    (destroy : CloudNode → Except String Unit) (tracked : List CloudNode) :
    MainRunResult :=
  let result : Int := match workflow with
    | .ok n => n
    | .error _ => 1
  if !(result != 0 && keep) then
    { stopNodesCalls := 1
      destroyAttempts := (stop_nodes destroy tracked).1
      destroyFailures := (stop_nodes destroy tracked).2
      keepNotice := false
      exit := workflow }
  else
    { stopNodesCalls := 0
      destroyAttempts := []
      destroyFailures := []
      keepNotice := keep
      exit := workflow }

/-- The claim's notion of a failed run: a non-zero returned exit code, or
a raised exception. -/
def workflowFailed : Except Unit Int → Bool
  | .ok n => n != 0
  | .error _ => true

/-- C1: for every run, `stop_nodes` is skipped exactly when the workflow
outcome is a failure (non-zero result or raised exception) and the
keep-on-failure flag was passed; in every other case it is invoked
exactly once. -/
theorem c1_lifecycle_guard_teardown (workflow : Except Unit Int) (keep : Bool)
    (destroy : CloudNode → Except String Unit) (tracked : List CloudNode) :
    (main_run workflow keep destroy tracked).stopNodesCalls
      = if workflowFailed workflow && keep then 0 else 1 := by
  cases workflow with
  | ok n =>
    by_cases h : n = 0 <;> cases keep <;> simp [main_run, workflowFailed, h]
  | error e =>
    cases keep <;> simp [main_run, workflowFailed]

/-- C7: `stop_nodes` attempts destruction of every tracked node (in
order), records exactly the failed destructions, never short-circuits,
and the destruction oracle has no effect on the run's computed outcome
(`exit`) nor on whether teardown was invoked. -/
theorem c7_stop_nodes_best_effort
    (destroy : CloudNode → Except String Unit) (nodes : List CloudNode)
    (workflow : Except Unit Int) (keep : Bool)
    (destroy2 : CloudNode → Except String Unit) (tracked : List CloudNode) :
    (stop_nodes destroy nodes).1 = nodes
      ∧ (stop_nodes destroy nodes).2
          = nodes.filter (fun nd => !(exceptOk (destroy nd)))
      ∧ (main_run workflow keep destroy tracked).exit
          = (main_run workflow keep destroy2 tracked).exit
      ∧ (main_run workflow keep destroy tracked).stopNodesCalls
          = (main_run workflow keep destroy2 tracked).stopNodesCalls := by
  refine ⟨?_, ?_, ?_, ?_⟩
  · induction nodes with
    | nil => rfl
    | cons nd rest ih =>
      simp only [stop_nodes]
      cases h : destroy nd <;> simp [ih]
  · induction nodes with
    | nil => rfl
    | cons nd rest ih =>
      simp only [stop_nodes, List.filter]
      cases h : destroy nd <;> simp [exceptOk, h, ih]
  · cases workflow <;> simp [main_run] <;> split <;> rfl
  · cases workflow <;> simp [main_run] <;> split <;> rfl

/-- `run_cluster_tests`' trial command: `if not trial_args: trial_args =
['flocker.acceptance']`, then spawn `['trial'] + list(trial_args)`. -/
def run_cluster_tests_command (trial_args : List String) : List String :=
  let trial_args := if trial_args.isEmpty then ["flocker.acceptance"] else trial_args
  "trial" :: trial_args

/-- The local leg of `run_client_tests` always spawns
`['trial', 'flocker.cli']`. -/
def run_client_tests_local_command : List String := ["trial", "flocker.cli"]

set_option linter.unusedVariables false in
/-- The trial command spawned by `do_client_acceptance_tests`: its
`trial_args` parameter is never forwarded; `run_client_tests` takes no
selector argument and hard-codes the client suite. -/
def do_client_acceptance_tests_command (trial_args : List String) : List String :=
  run_client_tests_local_command

/-- C3 counterexample: the client workflow, handed the non-empty selector
list `["suiteA"]`, still runs its hard-coded suite rather than the
supplied selector. -/
theorem c3_client_selectors_ignored_counterexample :
    do_client_acceptance_tests_command ["suiteA"] = ["trial", "flocker.cli"]
      ∧ do_client_acceptance_tests_command ["suiteA"] ≠ ["trial", "suiteA"] := by
  constructor
  · rfl
  · decide

/-- C3 (amended): the cluster workflow falls back to the default target
`flocker.acceptance` on an empty selector list and otherwise runs exactly
the supplied selectors, replacing the default; the client workflow
ignores the selector list entirely and always runs its default client
suite; neither workflow ever spawns an empty test run. -/
theorem c3_selector_handling (args : List String) :
    (args = [] → run_cluster_tests_command args = ["trial", "flocker.acceptance"])
      ∧ (args ≠ [] → run_cluster_tests_command args = "trial" :: args)
      ∧ do_client_acceptance_tests_command args = ["trial", "flocker.cli"]
      ∧ 2 ≤ (run_cluster_tests_command args).length
      ∧ 2 ≤ (do_client_acceptance_tests_command args).length := by
  refine ⟨?_, ?_, rfl, ?_, ?_⟩
  · intro h; subst h; rfl
  · intro h
    simp [run_cluster_tests_command, List.isEmpty_iff, h]
  · cases args <;> simp [run_cluster_tests_command]
  · simp [do_client_acceptance_tests_command, run_client_tests_local_command]

/-- C3 witness at concrete inputs: empty list gives the default cluster
target, a two-element list replaces it. -/
theorem c3_selector_handling_witness :
    run_cluster_tests_command [] = ["trial", "flocker.acceptance"]
      ∧ run_cluster_tests_command ["suiteA", "suiteB"]
          = ["trial", "suiteA", "suiteB"] :=
  ⟨(c3_selector_handling []).1 rfl,
   (c3_selector_handling ["suiteA", "suiteB"]).2.1 (by decide)⟩

/-- How a spawned or remote process run can fail: Twisted's
`ProcessTerminated` carries an exit code, or `none` when the process was
killed by a signal; any other failure is `other`. -/
inductive ProcessFailure where
  | processTerminated (exitCode : Option Int)
  | other (msg : String)
  deriving Repr, DecidableEq

/-- The `check_result` errback of `run_client_tests`:
`f.trap(ProcessTerminated)` re-raises any other failure; a
`ProcessTerminated` with an exit code returns that code, one without an
exit code (signal kill) returns the failure itself, keeping the Deferred
in the failure state. -/
def check_result : ProcessFailure → Except ProcessFailure Int
  | .processTerminated (some code) => .ok code
  | .processTerminated none => .error (.processTerminated none)
  | .other m => .error (.other m)

/-- One leg of `run_client_tests` after its `addCallbacks`: a successful
run maps to exit code `0`, a failure goes through `check_result`. -/
def leg_result : Except ProcessFailure Unit → Except ProcessFailure Int
  | .ok _ => .ok 0
  | .error f => check_result f

/-- Modelled from the spec: `flocker.provision._effect.sequence` (not in
the source excerpt) combining the two legs of `run_client_tests`.  Per
the spec, the exit code is 0 only if both the local and the remote leg
exit 0, otherwise the combined non-zero code is surfaced, and a raised
error propagates. -/
def sequenceLegs (a b : Except ProcessFailure Int) : Except ProcessFailure Int :=
  match a with
  | .error f => .error f
  | .ok m =>
    match b with
    | .error f => .error f
    | .ok n => .ok (if m != 0 then m else n)

/-- `run_client_tests` given the raw outcomes of the local trial run and
the remote installation-test run. -/
def run_client_tests (localRun remoteRun : Except ProcessFailure Unit) :
    Except ProcessFailure Int :=
  sequenceLegs (leg_result localRun) (leg_result remoteRun)

/-- C2: a leg whose process exited with status `n` yields `n` as that
leg's result, so with a clean local leg a remote exit code `n` becomes
the overall result; a signal-killed process (no exit code) propagates as
a raised error both at the leg and overall; and the overall result is
`0` only when both legs yield `0`. -/
theorem c2_client_signal_exit_mapping (n : Int)
    (localRun remoteRun : Except ProcessFailure Unit)
    (hzero : run_client_tests localRun remoteRun = .ok 0) :
    leg_result (.error (.processTerminated (some n))) = .ok n
      ∧ run_client_tests (.ok ()) (.error (.processTerminated (some n))) = .ok n
      ∧ leg_result (.error (.processTerminated none))
          = .error (.processTerminated none)
      ∧ run_client_tests (.ok ()) (.error (.processTerminated none))
          = .error (.processTerminated none)
      ∧ leg_result localRun = .ok 0 ∧ leg_result remoteRun = .ok 0 := by
  refine ⟨rfl, ?_, rfl, rfl, ?_, ?_⟩
  · simp [run_client_tests, sequenceLegs, leg_result, check_result]
  · revert hzero
    simp only [run_client_tests, sequenceLegs]
    cases h1 : leg_result localRun <;> cases h2 : leg_result remoteRun <;>
      simp
    intro h3
    split at h3 <;> omega
  · revert hzero
    simp only [run_client_tests, sequenceLegs]
    cases h1 : leg_result localRun <;> cases h2 : leg_result remoteRun <;>
      simp
    intro h3
    split at h3 <;> omega

/-- C2 witness: a remote leg exiting with code 3 after a clean local leg
gives overall exit code 3, and two clean legs give overall 0 with both
legs at 0. -/
theorem c2_client_signal_exit_mapping_witness :
    run_client_tests (.ok ()) (.error (.processTerminated (some 3))) = .ok 3
      ∧ leg_result (Except.ok (ε := ProcessFailure) ()) = .ok 0 :=
  ⟨(c2_client_signal_exit_mapping 3 (.ok ()) (.ok ()) rfl).2.1,
   (c2_client_signal_exit_mapping 3 (.ok ()) (.ok ()) rfl).2.2.2.2.1⟩

/-- Oracle for the external effects used by `LibcloudRunner.start_nodes`:
the provisioner's `create_node` (here indexed by the loop index together
with the requested instance name, so a world can make distinct calls
fail independently) and `remove_known_host` (keyed by the node address
it is given). -/
structure CloudWorld where
  create_node : Nat → String → Except String CloudNode
  remove_known_host : String → Except String Unit

/-- Python's `str.isalnum` restricted to ASCII: true iff the string is
non-empty and every character is a letter or digit. -/
def pyIsalnum (s : String) : Bool :=
  !s.isEmpty && s.data.all Char.isAlphanum

/-- `LibcloudRunner.__init__`: read `creator` from the configuration
metadata (`UsageError` if missing), reject a non-alphanumeric value
(`UsageError`), otherwise store it.  The metadata dictionary is an
association list. -/
def libcloudRunner_init (metadata : List (String × String)) :
    Except String String :=
  match metadata.lookup "creator" with
  | none => .error "Must specify creator metadata."
  | some creator =>
    if !(pyIsalnum creator) then
      .error ("Creator must be alphanumeric. Found " ++ creator)
    else
      .ok creator

/-- The instance name requested for the node at `index`:
`"acceptance-test-%s-%d" % (self.creator, index)`. -/
def instance_name (creator : String) (index : Nat) : String :=
  "acceptance-test-" ++ creator ++ "-" ++ toString index

/-- Observable result of `LibcloudRunner.start_nodes`: the runner's
`self.nodes` list after the call (`tracked`), every node the provisioner
actually returned (`created`), the instance names passed to
`create_node` in call order (`createCalls`), and whether the call
returned or re-raised an exception. -/
structure StartNodesResult where
  tracked : List CloudNode
  created : List CloudNode
  createCalls : List String
  outcome : Except String Unit
  deriving Repr

/-- The loop body of `LibcloudRunner.start_nodes`: for each `index` in
`range(node_count)`, call `create_node` (re-raising its exception
immediately, without retry), then `remove_known_host` on the new node's
address, and only then append the node to `self.nodes`. -/
def start_nodes_go (w : CloudWorld) (creator : String) :
    Nat → Nat → List CloudNode → List CloudNode → List String →
    StartNodesResult
  | _, 0, tracked, created, calls => ⟨tracked, created, calls, .ok ()⟩
  | index, remaining + 1, tracked, created, calls =>
    let nm := instance_name creator index
    match w.create_node index nm with
    | .error e => ⟨tracked, created, calls ++ [nm], .error e⟩
    | .ok node =>
      match w.remove_known_host node.address with
      | .error e => ⟨tracked, created ++ [node], calls ++ [nm], .error e⟩
      | .ok _ =>
        start_nodes_go w creator (index + 1) remaining
          (tracked ++ [node]) (created ++ [node]) (calls ++ [nm])

/-- `LibcloudRunner.start_nodes` with `self.nodes` initially empty (as
set by `__init__`). -/
def start_nodes (w : CloudWorld) (creator : String) (node_count : Nat) :
    StartNodesResult :=
  start_nodes_go w creator 0 node_count [] [] []

/-- When every known-host cleanup succeeds, the loop keeps `tracked` and
`created` in lockstep. -/
lemma start_nodes_go_tracked_eq_created (w : CloudWorld) (creator : String)
    (hrm : ∀ a, w.remove_known_host a = .ok ()) :
    ∀ (m j : Nat) (tracked created : List CloudNode) (calls : List String),
      tracked = created →
      (start_nodes_go w creator j m tracked created calls).tracked
        = (start_nodes_go w creator j m tracked created calls).created := by
  intro m
  induction m with
  | zero => intro j tracked created calls h; simpa [start_nodes_go] using h
  | succ m ih =>
    intro j tracked created calls h
    simp only [start_nodes_go]
    cases hc : w.create_node j (instance_name creator j) with
    | error e => simpa using h
    | ok node =>
      simp [hrm]
      exact ih (j + 1) (tracked ++ [node]) (created ++ [node]) _ (by rw [h])

/-- When every known-host cleanup succeeds, the first `t` creations
succeed, and the creation at offset `t` fails, the loop surfaces that
error, appends exactly `t` nodes to the tracked list, and issues exactly
`t + 1` creation calls. -/
lemma start_nodes_go_create_fail (w : CloudWorld) (creator : String)
    (e : String) (hrm : ∀ a, w.remove_known_host a = .ok ()) :
    ∀ (t m j : Nat) (tracked created : List CloudNode) (calls : List String),
      t < m →
      (∀ i, i < t →
        exceptOk (w.create_node (j + i) (instance_name creator (j + i))) = true) →
      w.create_node (j + t) (instance_name creator (j + t)) = .error e →
      (start_nodes_go w creator j m tracked created calls).outcome = .error e
        ∧ (start_nodes_go w creator j m tracked created calls).tracked.length
            = tracked.length + t
        ∧ (start_nodes_go w creator j m tracked created calls).createCalls.length
            = calls.length + t + 1 := by
  intro t
  induction t with
  | zero =>
    intro m j tracked created calls hm hok hfail
    match m, hm with
    | m + 1, _ =>
      simp only [start_nodes_go]
      rw [show j + 0 = j from rfl] at hfail
      rw [hfail]
      simp
  | succ t ih =>
    intro m j tracked created calls hm hok hfail
    match m, hm with
    | m + 1, hm2 =>
      simp only [start_nodes_go]
      have h0 := hok 0 (Nat.succ_pos t)
      rw [show j + 0 = j from rfl] at h0
      cases hc : w.create_node j (instance_name creator j) with
      | error e' => rw [hc] at h0; simp [exceptOk] at h0
      | ok node =>
        simp only [hrm node.address]
        have hok' : ∀ i, i < t →
            exceptOk (w.create_node (j + 1 + i)
              (instance_name creator (j + 1 + i))) = true := by
          intro i hi
          have := hok (i + 1) (Nat.succ_lt_succ hi)
          rwa [show j + (i + 1) = j + 1 + i by omega] at this
        have hfail' :
            w.create_node (j + 1 + t) (instance_name creator (j + 1 + t))
              = .error e := by
          rwa [show j + (t + 1) = j + 1 + t by omega] at hfail
        have := ih m (j + 1) (tracked ++ [node]) (created ++ [node])
          (calls ++ [instance_name creator j]) (Nat.lt_of_succ_lt_succ hm2)
          hok' hfail'
        refine ⟨this.1, ?_, ?_⟩
        · rw [this.2.1]; simp; omega
        · rw [this.2.2]; simp; omega

/-- C4: if the world's known-host cleanups succeed, the first `k`
creations succeed, and the creation of the `k`-th instance (of `n`
requested, `k < n`) fails, then `start_nodes` surfaces that error, the
tracked list and the created list coincide (no created instance is left
untracked), exactly the `k` previously created instances are tracked,
and `create_node` was called exactly `k + 1` times (no retry). -/
theorem c4_partial_allocation_tracking (w : CloudWorld) (creator : String)
    (n k : Nat) (e : String)
    (hrm : ∀ a, w.remove_known_host a = .ok ())
    (hok : ∀ i, i < k →
      exceptOk (w.create_node i (instance_name creator i)) = true)
    (hk : k < n)
    (hfail : w.create_node k (instance_name creator k) = .error e) :
    (start_nodes w creator n).outcome = .error e
      ∧ (start_nodes w creator n).tracked = (start_nodes w creator n).created
      ∧ (start_nodes w creator n).tracked.length = k
      ∧ (start_nodes w creator n).createCalls.length = k + 1 := by
  have hok' : ∀ i, i < k →
      exceptOk (w.create_node (0 + i) (instance_name creator (0 + i))) = true := by
    intro i hi; rw [Nat.zero_add]; exact hok i hi
  have hfail' : w.create_node (0 + k) (instance_name creator (0 + k)) = .error e := by
    rw [Nat.zero_add]; exact hfail
  have h := start_nodes_go_create_fail w creator e hrm k n 0 [] [] [] hk hok' hfail'
  refine ⟨h.1, ?_, ?_, ?_⟩
  · exact start_nodes_go_tracked_eq_created w creator hrm n 0 [] [] [] rfl
  · simpa using h.2.1
  · simpa using h.2.2

/-- A concrete world whose third creation fails and whose known-host
cleanups always succeed. -/
def wCreateFailAt2 : CloudWorld :=
  { create_node := fun i nm =>
      if i == 2 then .error "boom" else .ok ⟨nm, toString i⟩
    remove_known_host := fun _ => .ok () }

/-- C4 witness: requesting 3 nodes from `wCreateFailAt2` fails at index
2, leaving exactly the 2 created nodes tracked after 3 creation calls. -/
theorem c4_partial_allocation_tracking_witness :
    (start_nodes wCreateFailAt2 "alice" 3).outcome = .error "boom"
      ∧ (start_nodes wCreateFailAt2 "alice" 3).tracked
          = (start_nodes wCreateFailAt2 "alice" 3).created
      ∧ (start_nodes wCreateFailAt2 "alice" 3).tracked.length = 2
      ∧ (start_nodes wCreateFailAt2 "alice" 3).createCalls.length = 3 :=
  c4_partial_allocation_tracking wCreateFailAt2 "alice" 3 2 "boom"
    (fun _ => rfl) (by decide) (by decide) rfl

/-- `stop_nodes` attempts to destroy exactly the nodes of its tracked
list, in order. -/
lemma stop_nodes_attempts (destroy : CloudNode → Except String Unit) :
    ∀ nodes : List CloudNode, (stop_nodes destroy nodes).1 = nodes := by
  intro nodes
  induction nodes with
  | nil => rfl
  | cons nd rest ih =>
    simp only [stop_nodes]
    cases destroy nd <;> simp [ih]

/-- If the first `t` creations return nodes with addresses different
from `node.address` and their cleanups succeed, the creation at offset
`t` returns `node`, and the cleanup of `node.address` fails, then the
loop stops with that error having appended only the earlier nodes to the
tracked list, while `node` is appended to the created list. -/
lemma start_nodes_go_remove_fail (w : CloudWorld) (creator : String)
    (node : CloudNode) (e : String)
    (hrm : ∀ a, a ≠ node.address → w.remove_known_host a = .ok ())
    (hrmk : w.remove_known_host node.address = .error e) :
    ∀ (t m j : Nat) (tracked created : List CloudNode) (calls : List String),
      t < m →
      (∀ i, i < t → ∃ nd, w.create_node (j + i) (instance_name creator (j + i))
          = .ok nd ∧ nd.address ≠ node.address) →
      w.create_node (j + t) (instance_name creator (j + t)) = .ok node →
      ∃ s, (start_nodes_go w creator j m tracked created calls).tracked
              = tracked ++ s
        ∧ (start_nodes_go w creator j m tracked created calls).created
              = created ++ s ++ [node]
        ∧ (start_nodes_go w creator j m tracked created calls).outcome
              = .error e
        ∧ ∀ nd ∈ s, nd.address ≠ node.address := by
  intro t
  induction t with
  | zero =>
    intro m j tracked created calls hm hok hck
    match m, hm with
    | m + 1, _ =>
      simp only [start_nodes_go]
      rw [show j + 0 = j from rfl] at hck
      rw [hck]
      simp only [hrmk]
      exact ⟨[], by simp⟩
  | succ t ih =>
    intro m j tracked created calls hm hok hck
    match m, hm with
    | m + 1, hm2 =>
      simp only [start_nodes_go]
      obtain ⟨nd, hnd, hne⟩ := hok 0 (Nat.succ_pos t)
      rw [show j + 0 = j from rfl] at hnd
      rw [hnd]
      simp only [hrm nd.address hne]
      have hok' : ∀ i, i < t →
          ∃ nd', w.create_node (j + 1 + i) (instance_name creator (j + 1 + i))
            = .ok nd' ∧ nd'.address ≠ node.address := by
        intro i hi
        have := hok (i + 1) (Nat.succ_lt_succ hi)
        rwa [show j + (i + 1) = j + 1 + i by omega] at this
      have hck' : w.create_node (j + 1 + t) (instance_name creator (j + 1 + t))
          = .ok node := by
        rwa [show j + (t + 1) = j + 1 + t by omega] at hck
      obtain ⟨s, hs1, hs2, hs3, hs4⟩ := ih m (j + 1) (tracked ++ [nd])
        (created ++ [nd]) (calls ++ [instance_name creator j])
        (Nat.lt_of_succ_lt_succ hm2) hok' hck'
      refine ⟨nd :: s, ?_, ?_, hs3, ?_⟩
      · rw [hs1]; simp
      · rw [hs2]; simp
      · intro nd' hmem
        rcases List.mem_cons.mp hmem with h | h
        · subst h; exact hne
        · exact hs4 nd' h

/-- C9: if the first `k` creations return nodes with other addresses and
clean up fine, the `k`-th creation returns `node`, and the known-host
cleanup of `node.address` fails, then `start_nodes` surfaces that error
with `node` created but absent from the tracked list, so a subsequent
`stop_nodes` never attempts to destroy it. -/
theorem c9_untracked_node_on_known_host_failure (w : CloudWorld)
    (creator : String) (n k : Nat) (node : CloudNode) (e : String)
    (destroy : CloudNode → Except String Unit)
    (hrm : ∀ a, a ≠ node.address → w.remove_known_host a = .ok ())
    (hrmk : w.remove_known_host node.address = .error e)
    (hok : ∀ i, i < k → ∃ nd, w.create_node i (instance_name creator i)
        = .ok nd ∧ nd.address ≠ node.address)
    (hk : k < n)
    (hck : w.create_node k (instance_name creator k) = .ok node) :
    (start_nodes w creator n).outcome = .error e
      ∧ node ∈ (start_nodes w creator n).created
      ∧ node ∉ (start_nodes w creator n).tracked
      ∧ node ∉ (stop_nodes destroy (start_nodes w creator n).tracked).1 := by
  have hok' : ∀ i, i < k → ∃ nd, w.create_node (0 + i)
      (instance_name creator (0 + i)) = .ok nd ∧ nd.address ≠ node.address := by
    intro i hi; rw [Nat.zero_add]; exact hok i hi
  have hck' : w.create_node (0 + k) (instance_name creator (0 + k)) = .ok node := by
    rw [Nat.zero_add]; exact hck
  obtain ⟨s, hs1, hs2, hs3, hs4⟩ :=
    start_nodes_go_remove_fail w creator node e hrm hrmk k n 0 [] [] [] hk
      hok' hck'
  have htr : (start_nodes w creator n).tracked = s := by
    simpa [start_nodes] using hs1
  have hnotin : node ∉ (start_nodes w creator n).tracked := by
    rw [htr]
    intro hmem
    exact hs4 node hmem rfl
  refine ⟨by simpa [start_nodes] using hs3, ?_, hnotin, ?_⟩
  · have : (start_nodes w creator n).created = s ++ [node] := by
      simpa [start_nodes] using hs2
    rw [this]; simp
  · rw [stop_nodes_attempts]; exact hnotin

/-- A concrete world in which every creation succeeds (node address is
the decimal loop index) but the known-host cleanup of address "1"
fails. -/
def wRemoveFailAt1 : CloudWorld :=
  { create_node := fun i nm => .ok ⟨nm, toString i⟩
    remove_known_host := fun a =>
      if a == "1" then .error "rmfail" else .ok () }

/-- C9 witness: with `wRemoveFailAt1`, requesting 3 nodes fails at the
cleanup of the second node, which is created but neither tracked nor
subsequently destroyed. -/
theorem c9_untracked_node_on_known_host_failure_witness :
    (start_nodes wRemoveFailAt1 "alice" 3).outcome = .error "rmfail"
      ∧ (⟨instance_name "alice" 1, "1"⟩ : CloudNode)
          ∈ (start_nodes wRemoveFailAt1 "alice" 3).created
      ∧ (⟨instance_name "alice" 1, "1"⟩ : CloudNode)
          ∉ (start_nodes wRemoveFailAt1 "alice" 3).tracked
      ∧ (⟨instance_name "alice" 1, "1"⟩ : CloudNode)
          ∉ (stop_nodes (fun _ => .ok ())
              (start_nodes wRemoveFailAt1 "alice" 3).tracked).1 :=
  c9_untracked_node_on_known_host_failure wRemoveFailAt1 "alice" 3 1
    ⟨instance_name "alice" 1, "1"⟩ "rmfail" (fun _ => .ok ())
    (fun a ha => by simp only [wRemoveFailAt1]; rw [if_neg (by simpa using ha)])
    (by simp [wRemoveFailAt1])
    (fun i hi => by
      have hi0 : i = 0 := by omega
      subst hi0
      exact ⟨⟨instance_name "alice" 0, "0"⟩, rfl, by decide⟩)
    (by decide) rfl

/-- When every creation and every cleanup succeeds, the allocation loop
completes normally, whatever the creator string is. -/
lemma start_nodes_go_all_ok (w : CloudWorld) (creator : String)
    (hcr : ∀ i nm, exceptOk (w.create_node i nm) = true)
    (hrm : ∀ a, w.remove_known_host a = .ok ()) :
    ∀ (m j : Nat) (tracked created : List CloudNode) (calls : List String),
      (start_nodes_go w creator j m tracked created calls).outcome = .ok () := by
  intro m
  induction m with
  | zero => intro j tracked created calls; rfl
  | succ m ih =>
    intro j tracked created calls
    simp only [start_nodes_go]
    cases hc : w.create_node j (instance_name creator j) with
    | error e => have := hcr j (instance_name creator j); rw [hc] at this; simp [exceptOk] at this
    | ok node =>
      simp [hrm]
      exact ih (j + 1) (tracked ++ [node]) (created ++ [node]) _

/-- Every instance name passed to `create_node` by the allocation loop
starting at `j` follows the `instance_name` pattern at an index in
`[j, j + m)`, beyond the names already accumulated. -/
lemma start_nodes_go_calls (w : CloudWorld) (creator : String) :
    ∀ (m j : Nat) (tracked created : List CloudNode) (calls : List String)
      (nm : String),
      nm ∈ (start_nodes_go w creator j m tracked created calls).createCalls →
      nm ∈ calls ∨ ∃ i, j ≤ i ∧ i < j + m ∧ nm = instance_name creator i := by
  intro m
  induction m with
  | zero =>
    intro j tracked created calls nm hmem
    exact Or.inl hmem
  | succ m ih =>
    intro j tracked created calls nm hmem
    simp only [start_nodes_go] at hmem
    cases hc : w.create_node j (instance_name creator j) with
    | error e =>
      rw [hc] at hmem
      simp at hmem
      rcases hmem with h | h
      · exact Or.inl h
      · exact Or.inr ⟨j, Nat.le_refl j, by omega, h⟩
    | ok node =>
      rw [hc] at hmem
      cases hr : w.remove_known_host node.address with
      | error e =>
        simp [hr] at hmem
        rcases hmem with h | h
        · exact Or.inl h
        · exact Or.inr ⟨j, Nat.le_refl j, by omega, h⟩
      | ok u =>
        simp [hr] at hmem
        rcases ih (j + 1) (tracked ++ [node]) (created ++ [node])
            (calls ++ [instance_name creator j]) nm hmem with h | ⟨i, h1, h2, h3⟩
        · rcases List.mem_append.mp h with h' | h'
          · exact Or.inl h'
          · exact Or.inr ⟨j, Nat.le_refl j, by omega, by simpa using h'⟩
        · exact Or.inr ⟨i, by omega, by omega, h3⟩

/-- C6: a missing `creator` metadata entry or a non-alphanumeric creator
raises a usage error in `LibcloudRunner.__init__`, i.e. at configuration
time; a valid creator is accepted there; allocation itself performs no
creator validation (with a well-behaved world it succeeds for an
arbitrary creator string); and every instance name it requests embeds
the creator tag in the `acceptance-test-<creator>-<index>` pattern. -/
theorem c6_creator_tag_validation (metadata : List (String × String))
    (creator : String) (w : CloudWorld) (n : Nat) :
    (metadata.lookup "creator" = none →
        libcloudRunner_init metadata = .error "Must specify creator metadata.")
      ∧ (∀ c, metadata.lookup "creator" = some c → pyIsalnum c = false →
          libcloudRunner_init metadata
            = .error ("Creator must be alphanumeric. Found " ++ c))
      ∧ (∀ c, metadata.lookup "creator" = some c → pyIsalnum c = true →
          libcloudRunner_init metadata = .ok c)
      ∧ ((∀ i nm, exceptOk (w.create_node i nm) = true) →
          (∀ a, w.remove_known_host a = .ok ()) →
          (start_nodes w creator n).outcome = .ok ())
      ∧ (∀ nm, nm ∈ (start_nodes w creator n).createCalls →
          ∃ i, i < n ∧ nm = instance_name creator i) := by
  refine ⟨?_, ?_, ?_, ?_, ?_⟩
  · intro hmiss; simp [libcloudRunner_init, hmiss]
  · intro c hfound hbad; simp [libcloudRunner_init, hfound, hbad]
  · intro c hfound hgood; simp [libcloudRunner_init, hfound, hgood]
  · intro hcr hrm; exact start_nodes_go_all_ok w creator hcr hrm n 0 [] [] []
  · intro nm hmem
    rcases start_nodes_go_calls w creator n 0 [] [] [] nm hmem
      with h | ⟨i, _, h2, h3⟩
    · simp at h
    · exact ⟨i, by omega, h3⟩

/-- A world in which every external call succeeds. -/
def wAllOk : CloudWorld :=
  { create_node := fun i nm => .ok ⟨nm, "10.0.0." ++ toString i⟩
    remove_known_host := fun _ => .ok () }

/-- C6 witness: the three validation outcomes on concrete metadata
dictionaries, a successful allocation with an arbitrary (even
non-alphanumeric) creator string, and the name pattern of one concrete
creation call. -/
theorem c6_creator_tag_validation_witness :
    libcloudRunner_init [] = .error "Must specify creator metadata."
      ∧ libcloudRunner_init [("creator", "bad tag")]
          = .error "Creator must be alphanumeric. Found bad tag"
      ∧ libcloudRunner_init [("creator", "alice")] = .ok "alice"
      ∧ (start_nodes wAllOk "bad tag" 1).outcome = .ok ()
      ∧ (∃ i, i < 1 ∧ instance_name "bad tag" 0 = instance_name "bad tag" i) :=
  ⟨(c6_creator_tag_validation [] "x" wAllOk 0).1 rfl,
   (c6_creator_tag_validation [("creator", "bad tag")] "x" wAllOk 0).2.1
     "bad tag" (by decide) (by decide),
   (c6_creator_tag_validation [("creator", "alice")] "x" wAllOk 0).2.2.1
     "alice" (by decide) (by decide),
   (c6_creator_tag_validation [] "bad tag" wAllOk 1).2.2.2.1
     (fun i nm => rfl) (fun a => rfl),
   (c6_creator_tag_validation [] "bad tag" wAllOk 1).2.2.2.2
     (instance_name "bad tag" 0) (by decide)⟩

/-- A node returned by `VagrantRunner.start_nodes`. -/
structure VagrantNode where
  address : String
  distribution : String
  deriving Repr, DecidableEq

/-- The fixed pool addresses of `VagrantRunner` (`NODE_ADDRESSES`). -/
def NODE_ADDRESSES : List String := ["172.16.255.240", "172.16.255.241"]

/-- One external action of `VagrantRunner.start_nodes`, in the order the
code performs them: `vagrant destroy -f`; `vagrant up` (with
`FLOCKER_BOX_VERSION` in the environment when a package version is
pinned); `ssh-keygen -R address`; pulling docker images remotely on an
address. -/
inductive VagrantStep where
  | destroy
  | up (boxVersion : Option String)
  | removeKnownHost (address : String)
  | remotePull (address : String)
  deriving Repr, DecidableEq

/-- Oracle for the Vagrant runner's external effects, together with the
externally defined `vagrant_version` mapping used to compute the
`FLOCKER_BOX_VERSION` value. -/
structure VagrantWorld where
  step : VagrantStep → Except String Unit
  vagrant_version : String → String

/-- The error raised by `VagrantRunner.start_nodes`: the
`NotImplementedError` guard, or a failure of one of the external
steps. -/
inductive VagrantError where
  | notImplemented (msg : String)
  | stepFailed (e : String)
  deriving Repr, DecidableEq

/-- Run the listed steps in order, stopping at the first failure.
Returns the steps actually attempted and the first error, if any. -/
def runSteps (w : VagrantWorld) : List VagrantStep →
    List VagrantStep × Except String Unit
  | [] => ([], .ok ())
  | s :: rest =>
    match w.step s with
    | .error e => ([s], .error e)
    | .ok _ =>
      let tail := runSteps w rest
      (s :: tail.1, tail.2)

/-- The known-host cleanup and docker-image pull performed for each
fixed pool address, in list order. -/
def perAddressSteps : List String → List VagrantStep
  | [] => []
  | a :: rest => .removeKnownHost a :: .remotePull a :: perAddressSteps rest

/-- `VagrantRunner.start_nodes`: raise `NotImplementedError` unless
`node_count == 2`, before any external command; otherwise destroy the
box, boot it (propagating the pinned version into the boot environment
when one is set and non-empty, mirroring Python truthiness), clean up
known hosts and pre-pull images for each fixed address, and return one
node per fixed address. -/
def vagrant_start_nodes (w : VagrantWorld) (distribution : String)
    (version : Option String) (node_count : Nat) :
    List VagrantStep × Except VagrantError (List VagrantNode) :=
  if node_count ≠ 2 then
    ([], .error (.notImplemented "Vagrant start_nodes must start 2 nodes"))
  else
    let boxVersion : Option String := match version with
      | none => none
      | some v => if v = "" then none else some (w.vagrant_version v)
    let steps := VagrantStep.destroy :: VagrantStep.up boxVersion ::
      perAddressSteps NODE_ADDRESSES
    let r := runSteps w steps
    match r.2 with
    | .error e => (r.1, .error (.stepFailed e))
    | .ok _ =>
      (r.1, .ok (NODE_ADDRESSES.map fun a => ⟨a, distribution⟩))

/-- C5: for any `node_count` other than 2, `VagrantRunner.start_nodes`
fails before attempting any external step; for `node_count = 2` with all
steps succeeding it returns exactly the two fixed-address nodes. -/
theorem c5_vagrant_fixed_pool_size (w : VagrantWorld) (distribution : String)
    (version : Option String) (node_count : Nat) :
    (node_count ≠ 2 →
        (vagrant_start_nodes w distribution version node_count).1 = []
          ∧ (vagrant_start_nodes w distribution version node_count).2
              = .error (.notImplemented "Vagrant start_nodes must start 2 nodes"))
      ∧ (node_count = 2 → (∀ s, w.step s = .ok ()) →
          (vagrant_start_nodes w distribution version node_count).2
            = .ok [⟨"172.16.255.240", distribution⟩,
                   ⟨"172.16.255.241", distribution⟩]) := by
  constructor
  · intro h
    constructor <;> simp [vagrant_start_nodes, h]
  · intro h hok
    subst h
    simp [vagrant_start_nodes, runSteps, perAddressSteps, NODE_ADDRESSES, hok]

/-- A Vagrant world in which every step succeeds. -/
def vagrantAllOk : VagrantWorld :=
  { step := fun _ => .ok ()
    vagrant_version := fun v => v }

/-- C5 witness: `node_count = 5` fails with no step attempted;
`node_count = 2` in an all-succeeding world returns the two fixed
nodes. -/
theorem c5_vagrant_fixed_pool_size_witness :
    ((vagrant_start_nodes vagrantAllOk "fedora-20" none 5).1 = []
        ∧ (vagrant_start_nodes vagrantAllOk "fedora-20" none 5).2
            = .error (.notImplemented "Vagrant start_nodes must start 2 nodes"))
      ∧ (vagrant_start_nodes vagrantAllOk "fedora-20" none 2).2
          = .ok [⟨"172.16.255.240", "fedora-20"⟩,
                 ⟨"172.16.255.241", "fedora-20"⟩] :=
  ⟨(c5_vagrant_fixed_pool_size vagrantAllOk "fedora-20" none 5).1 (by decide),
   (c5_vagrant_fixed_pool_size vagrantAllOk "fedora-20" none 2).2 rfl
     (fun s => rfl)⟩

/-- `flocker.acceptance.testtools.VolumeBackend` as used here: a named
constant collection; the script only ever passes `zfs`. -/
inductive VolumeBackend where
  | zfs
  deriving Repr, DecidableEq

/-- The constant's name, as exposed by the `name` attribute. -/
def VolumeBackend.constantName : VolumeBackend → String
  | .zfs => "zfs"

/-- `extend_environ`: a copy of the inherited process environment with
the given named values added, added values overriding inherited ones. -/
def extend_environ (base : String → Option String)
    (updates : List (String × String)) : String → Option String :=
  fun k =>
    match updates.lookup k with
    | some v => some v
    | none => base k

/-- The four named values `run_cluster_tests` injects into the spawned
trial process's environment, keyed and computed exactly as in the
source: the node addresses joined by ":", the control node's address,
the agent node addresses joined by ":", and the volume backend's
name. -/
def cluster_env_updates {α : Type} (addr : α → String) (nodes : List α)
    (control_node : α) (agent_nodes : List α)
    (volume_backend : VolumeBackend) : List (String × String) :=
  [("FLOCKER_ACCEPTANCE_NODES",
      String.intercalate ":" (nodes.map addr)),
   ("FLOCKER_ACCEPTANCE_CONTROL_NODE", addr control_node),
   ("FLOCKER_ACCEPTANCE_AGENT_NODES",
      String.intercalate ":" (agent_nodes.map addr)),
   ("FLOCKER_ACCEPTANCE_VOLUME_BACKEND", volume_backend.constantName)]

/-- The environment `run_cluster_tests` hands to the spawned trial
process. -/
def run_cluster_tests_env {α : Type} (addr : α → String)
    (base : String → Option String) (nodes : List α) (control_node : α)
    (agent_nodes : List α) (volume_backend : VolumeBackend) :
    String → Option String :=
  extend_environ base
    (cluster_env_updates addr nodes control_node agent_nodes volume_backend)

/-- The test-process environment produced by
`do_cluster_acceptance_tests` for an allocated pool: the control node is
`nodes[0]`, the agent nodes are the whole pool, and the volume backend
is `VolumeBackend.zfs`; `none` models the index error on an empty
pool. -/
def do_cluster_acceptance_tests_env {α : Type} (addr : α → String)
    (base : String → Option String) (nodes : List α) :
    Option (String → Option String) :=
  match nodes with
  | [] => none
  | control :: _ =>
    some (run_cluster_tests_env addr base nodes control nodes VolumeBackend.zfs)

/-- C8: for a non-empty pool, the cluster workflow spawns the test
process with exactly four injected named values — node-address list
joined by ":", the first pool node's address as control node, the
agent-address list joined by ":", and the storage-backend name — while
every other name is inherited from the process environment. -/
theorem c8_cluster_environment_contract {α : Type} (addr : α → String)
    (base : String → Option String) (control : α) (rest : List α)
    (env : String → Option String)
    (henv : do_cluster_acceptance_tests_env addr base (control :: rest)
      = some env) :
    env "FLOCKER_ACCEPTANCE_NODES"
        = some (String.intercalate ":" ((control :: rest).map addr))
      ∧ env "FLOCKER_ACCEPTANCE_CONTROL_NODE" = some (addr control)
      ∧ env "FLOCKER_ACCEPTANCE_AGENT_NODES"
          = some (String.intercalate ":" ((control :: rest).map addr))
      ∧ env "FLOCKER_ACCEPTANCE_VOLUME_BACKEND" = some "zfs"
      ∧ (cluster_env_updates addr (control :: rest) control (control :: rest)
          VolumeBackend.zfs).length = 4
      ∧ ∀ k, k ≠ "FLOCKER_ACCEPTANCE_NODES" →
          k ≠ "FLOCKER_ACCEPTANCE_CONTROL_NODE" →
          k ≠ "FLOCKER_ACCEPTANCE_AGENT_NODES" →
          k ≠ "FLOCKER_ACCEPTANCE_VOLUME_BACKEND" →
          env k = base k := by
  have he : env = run_cluster_tests_env addr base (control :: rest) control
      (control :: rest) VolumeBackend.zfs := by
    have := henv
    simp only [do_cluster_acceptance_tests_env] at this
    exact (Option.some_inj.mp this).symm
  subst he
  refine ⟨rfl, ?_, ?_, ?_, rfl, ?_⟩
  · rfl
  · rfl
  · rfl
  · intro k h1 h2 h3 h4
    have e1 : (k == "FLOCKER_ACCEPTANCE_NODES") = false :=
      beq_eq_false_iff_ne.mpr h1
    have e2 : (k == "FLOCKER_ACCEPTANCE_CONTROL_NODE") = false :=
      beq_eq_false_iff_ne.mpr h2
    have e3 : (k == "FLOCKER_ACCEPTANCE_AGENT_NODES") = false :=
      beq_eq_false_iff_ne.mpr h3
    have e4 : (k == "FLOCKER_ACCEPTANCE_VOLUME_BACKEND") = false :=
      beq_eq_false_iff_ne.mpr h4
    simp [run_cluster_tests_env, extend_environ, cluster_env_updates,
      List.lookup, e1, e2, e3, e4]

/-- The base environment used in the C8 witness. -/
def witnessBaseEnv : String → Option String :=
  fun k => if k = "HOME" then some "/root" else none

/-- The environment the cluster workflow builds for a concrete two-node
Vagrant pool over `witnessBaseEnv`. -/
def witnessClusterEnv : String → Option String :=
  run_cluster_tests_env VagrantNode.address witnessBaseEnv
    [⟨"172.16.255.240", "fedora-20"⟩, ⟨"172.16.255.241", "fedora-20"⟩]
    ⟨"172.16.255.240", "fedora-20"⟩
    [⟨"172.16.255.240", "fedora-20"⟩, ⟨"172.16.255.241", "fedora-20"⟩]
    VolumeBackend.zfs

/-- C8 witness: the contract evaluated on a concrete two-node Vagrant
pool and a base environment defining "HOME". -/
theorem c8_cluster_environment_contract_witness :
    witnessClusterEnv "FLOCKER_ACCEPTANCE_NODES"
        = some "172.16.255.240:172.16.255.241"
      ∧ witnessClusterEnv "FLOCKER_ACCEPTANCE_CONTROL_NODE"
          = some "172.16.255.240"
      ∧ witnessClusterEnv "FLOCKER_ACCEPTANCE_VOLUME_BACKEND" = some "zfs"
      ∧ witnessClusterEnv "HOME" = some "/root" := by
  have h := c8_cluster_environment_contract VagrantNode.address witnessBaseEnv
    (⟨"172.16.255.240", "fedora-20"⟩ : VagrantNode)
    [⟨"172.16.255.241", "fedora-20"⟩] witnessClusterEnv rfl
  refine ⟨?_, h.2.1, h.2.2.2.1, ?_⟩
  · rw [h.1]; rfl
  · rw [h.2.2.2.2.2 "HOME" (by decide) (by decide) (by decide) (by decide)]
    rfl

/-- C10: whatever the pool and inherited environment, the cluster
workflow injects `FLOCKER_ACCEPTANCE_VOLUME_BACKEND = "zfs"`:
`do_cluster_acceptance_tests` hard-codes `VolumeBackend.zfs` and takes
no backend parameter. -/
theorem c10_volume_backend_always_zfs {α : Type} (addr : α → String)
    (base : String → Option String) (nodes : List α)
    (env : String → Option String)
    (henv : do_cluster_acceptance_tests_env addr base nodes = some env) :
    env "FLOCKER_ACCEPTANCE_VOLUME_BACKEND" = some "zfs" := by
  cases nodes with
  | nil => simp [do_cluster_acceptance_tests_env] at henv
  | cons control rest =>
    simp only [do_cluster_acceptance_tests_env] at henv
    rw [← Option.some_inj.mp henv]
    rfl

/-- C10 witness: the zfs value on a concrete one-node pool with an empty
base environment. -/
theorem c10_volume_backend_always_zfs_witness :
    run_cluster_tests_env VagrantNode.address (fun _ => none)
        [⟨"172.16.255.240", "centos-7"⟩] ⟨"172.16.255.240", "centos-7"⟩
        [⟨"172.16.255.240", "centos-7"⟩] VolumeBackend.zfs
        "FLOCKER_ACCEPTANCE_VOLUME_BACKEND" = some "zfs" :=
  c10_volume_backend_always_zfs VagrantNode.address (fun _ => none)
    [⟨"172.16.255.240", "centos-7"⟩] _ rfl

end Acceptance
